import Mathlib

/-!
Shallow embedding of `use-iframe-tracker` (src/index.ts).

The repository emits two JavaScript artifacts from one configuration:
an iframe document hosting the "Token Store" agent and a companion
script hosting the "Bridge Client" agent.  The embedding below models
the protocol logic of those two agents as pure Lean functions over
explicit state records.  JavaScript `string | null | undefined` values
are modelled as `Option String`, with JS truthiness made explicit
(`none` and `some ""` are falsy).  Browser primitives that can throw
(localStorage access, cookie writes) are modelled by explicit failure
flags; the code's `safeExecute` try/catch wrapper then becomes a
branch on those flags, exactly following the nesting of the wrappers
in the source.
-/

/-- JS truthiness of a `string | null | undefined` value:
`null`/`undefined` and the empty string are falsy. -/
def truthy : Option String → Bool
  | none => false
  | some s => s ≠ ""

/-- JS `a || b` on string-or-null values: returns `a` when truthy, else `b`. -/
def jsOr (a b : Option String) : Option String :=
  if truthy a then a else b

/-- A runtime JS value as it appears in the Bridge Client's message-listener
guard: either a boolean (result of `!x`), a string, or `undefined`
(result of an optional chain on a missing field). -/
inductive JSVal where
  | bool (b : Bool)
  | str (s : String)
  | undef
deriving DecidableEq, Repr

/-- JS `!v` (logical negation of truthiness) on a `JSVal`. -/
def jsNot : JSVal → Bool
  | JSVal.bool b => !b
  | JSVal.str s => s == ""
  | JSVal.undef => true

/-- JS strict equality `===` on `JSVal`: values of different runtime
types are never strictly equal. -/
def strictEq : JSVal → JSVal → Bool
  | JSVal.bool a, JSVal.bool b => a == b
  | JSVal.str a, JSVal.str b => a == b
  | JSVal.undef, JSVal.undef => true
  | _, _ => false

/-! ## Token Store (iframe agent) persistence model

The three redundant holders of the token
(`localStorage` slot, cookie, `memoryToken` variable), src/index.ts
lines 132, 149-165.  `storage` and `cookie` are `Option String`
(`getItem` / `getCookie` return the stored string or null); `memory`
is a plain string initialised to `""`. -/

structure HolderState where
  storage : Option String
  cookie : Option String
  memory : String
deriving DecidableEq, Repr

/-- Which browser primitives throw in the current environment.
`storageGetFails` / `storageSetFails`: `localStorage.getItem` /
`localStorage.setItem` throw (storage disabled, quota, privacy mode);
`cookieReadFails` / `cookieWriteFails`: reading / assigning
`document.cookie` throws. -/
structure FailureModel where
  storageGetFails : Bool
  storageSetFails : Bool
  cookieReadFails : Bool
  cookieWriteFails : Bool
deriving DecidableEq, Repr

/-- The environment in which no browser primitive throws. -/
def noFail : FailureModel :=
  { storageGetFails := false, storageSetFails := false,
    cookieReadFails := false, cookieWriteFails := false }

/-- Token Store `getCookie(name)` (src/index.ts lines 119-130): the parsing
of the raw `document.cookie` string, faithful to the source's
split/pop/split/shift sequence.  Returns the cookie's value, or `none`
when the name is absent (`parts.length !== 2`). -/
def getCookieStr (jar : String) (name : String) : Option String :=
  let value := "; " ++ jar
  let parts := value.splitOn ("; " ++ name ++ "=")
  if parts.length == 2 then
    match (parts.getLast? : Option String) with
    | none => none
    | some last => (last.splitOn ";").head?
  else
    none

/-- Token Store `getToken()` (src/index.ts lines 149-155):
`safeExecute(() => localStorage.getItem(k) || getCookie(n) || memoryToken)`.
The whole read is wrapped in one `safeExecute`, so a throwing
`localStorage.getItem` aborts the entire chain to `null`; a throwing
cookie read is caught by `getCookie`'s own inner `safeExecute` and
degrades to `memoryToken`. -/
def getTokenRun (f : FailureModel) (h : HolderState) : Option String :=
  if f.storageGetFails then
    none
  else
    let cookieVal := if f.cookieReadFails then none else h.cookie
    jsOr h.storage (jsOr cookieVal (some h.memory))

/-- Token Store `setToken(token)` (src/index.ts lines 157-165): no-op on
falsy input, otherwise one `safeExecute` wrapping, in order,
`localStorage.setItem`, `setCookie` (itself internally safe-executed),
and the `memoryToken` assignment.  A throwing `setItem` therefore
aborts all three writes; a throwing cookie write only skips the cookie. -/
def setTokenRun (f : FailureModel) (tok : Option String) (h : HolderState) : HolderState :=
  if truthy tok then
    match tok with
    | none => h
    | some t =>
        if f.storageSetFails then h
        else
          let h1 := { h with storage := some t }
          let h2 := if f.cookieWriteFails then h1 else { h1 with cookie := some t }
          { h2 with memory := t }
  else h

/-- Token Store reconciliation tick (src/index.ts lines 189-194): the
`setInterval` callback reads the storage slot (unguarded `getItem`; if
it throws the tick aborts with no state change) and, when the slot is
falsy while `memoryToken` is truthy, re-runs `setToken(memoryToken)`. -/
def reconcileTick (f : FailureModel) (h : HolderState) : HolderState :=
  if f.storageGetFails then h
  else if !truthy h.storage && h.memory != "" then setTokenRun f (some h.memory) h
  else h

/-- Full observable state of the Token Store agent: the three holders,
the one-shot `isInitialized` flag, and counters of registered message
listeners and running reconciliation timers (src/index.ts lines 132-133,
179-197). -/
structure StoreCtx where
  holders : HolderState
  isInitialized : Bool
  listeners : Nat
  timers : Nat
deriving DecidableEq, Repr

/-- Token Store `initialize()` (src/index.ts lines 179-197), with the
result of `generateToken()` (`crypto.randomUUID()` under `safeExecute`,
so `none` on failure) passed in as `gen`.  Guarded by `isInitialized`;
otherwise registers the message listener, resolves
`getToken() || generateToken()`, persists it via `setToken`, starts the
reconciliation interval and sets the flag. -/
def initStore (f : FailureModel) (gen : Option String) (c : StoreCtx) : StoreCtx :=
  if c.isInitialized then c
  else
    let c1 := { c with listeners := c.listeners + 1 }
    let tok := jsOr (getTokenRun f c1.holders) gen
    let c2 := { c1 with holders := setTokenRun f tok c1.holders }
    let c3 := { c2 with timers := c2.timers + 1 }
    { c3 with isInitialized := true }

/-- A `TOKEN_READY` response as posted by the Token Store
(src/index.ts lines 135-147): `{type, token, timestamp, source}`. -/
structure StoreMsg where
  type : String
  token : String
  timestamp : Nat
  source : String
deriving DecidableEq, Repr

/-- Token Store `notifyParent(token)` (src/index.ts lines 135-147):
posts a `TOKEN_READY` message to `window.parent` only when the parent
window exists and the token is truthy; otherwise posts nothing.
`outbox` collects the messages posted so far. -/
def notifyParent (hasParent : Bool) (now : Nat) (tok : Option String)
    (outbox : List StoreMsg) : List StoreMsg :=
  if hasParent && truthy tok then
    outbox ++ [{ type := "TOKEN_READY", token := tok.getD "",
                 timestamp := now, source := "session-tracker" }]
  else outbox

/-- The data field of a message received by the Token Store: only its
`type` is inspected by src/index.ts's `handleMessage`. -/
structure StoreInPayload where
  type : Option String
deriving DecidableEq, Repr

/-- Token Store `handleMessage(event)` (src/index.ts lines 167-177):
returns unchanged outbox when `event.data?.type` is falsy; otherwise
dispatches on the type, answering `GET_TOKEN` with
`notifyParent(getToken())` and ignoring every other type. -/
def storeHandleMessage (f : FailureModel) (hasParent : Bool) (now : Nat)
    (h : HolderState) (outbox : List StoreMsg) (d : Option StoreInPayload) :
    List StoreMsg :=
  match d with
  | none => outbox
  | some p =>
      match p.type with
      | none => outbox
      | some t =>
          if t == "" then outbox
          else if t == "GET_TOKEN" then notifyParent hasParent now (getTokenRun f h) outbox
          else outbox

/-! ## Cookie options (configuration layer) -/

/-- The `sameSite` configuration value, one of the three literal
strings accepted by the constructor. -/
inductive SameSite where
  | Strict
  | Lax
  | SNone
deriving DecidableEq, Repr

/-- The string each `SameSite` value renders to in the cookie options. -/
def sameSiteStr : SameSite → String
  | SameSite.Strict => "Strict"
  | SameSite.Lax => "Lax"
  | SameSite.SNone => "None"

/-- The configuration fields consumed by `getCookieOptions`
(src/index.ts lines 54-72). -/
structure CookieCfg where
  domain : String
  secure : Bool
  sameSite : SameSite
deriving DecidableEq, Repr

/-- The mutation at the head of `getCookieOptions` (src/index.ts lines
55-58): `SameSite=None` with `secure=false` forces `secure=true`
(after a `console.warn` diagnostic). -/
def forceSecure (c : CookieCfg) : CookieCfg :=
  if c.sameSite = SameSite.SNone && !c.secure then { c with secure := true } else c

/-- The options array of `getCookieOptions` (src/index.ts lines 63-69)
after `.filter(Boolean)`: falsy entries (the empty `domain` conjunct,
the `secure` conjunct when `secure` is false) are dropped.  `expires`
stands for `expirationDate.toUTCString()`, a value of the clock. -/
def getCookieOptionsList (c : CookieCfg) (expires : String) : List String :=
  let c2 := forceSecure c
  List.filterMap id
    [some "path=/",
     (if c2.domain == "" then none else some ("domain=" ++ c2.domain)),
     (if c2.secure then some "secure" else none),
     some ("samesite=" ++ sameSiteStr c2.sameSite),
     some ("expires=" ++ expires)]

/-- `getCookieOptions` (src/index.ts line 71): the options joined
with `"; "`. -/
def getCookieOptions (c : CookieCfg) (expires : String) : String :=
  String.intercalate "; " (getCookieOptionsList c expires)

/-! ## Bridge Client (parent-page agent) -/

/-- The data payload of a message event as inspected by the Bridge
Client's listener: the `type`, `source` and `token` fields, each
possibly absent. -/
structure Payload where
  type : Option String
  source : Option String
  token : Option String
deriving DecidableEq, Repr

/-- A message event delivered to the Bridge Client's window: its
origin string, its source window (a window reference, modelled by a
numeric identity, `none` for a null source) and its data (`none` for a
null/undefined `event.data`). -/
structure MsgEvent where
  origin : String
  eventSource : Option Nat
  data : Option Payload
deriving DecidableEq, Repr

/-- The JS value of `event.data?.f` for a string field `f`: `undefined`
when `data` is null or the field is absent, else the field's string. -/
def optChainStr (d : Option Payload) (f : Payload → Option String) : JSVal :=
  match d with
  | none => JSVal.undef
  | some p =>
      match f p with
      | none => JSVal.undef
      | some s => JSVal.str s

/-- The rejection guard of `setupSecureMessageListener` (src/index.ts
lines 291-300), disjunct for disjunct, including the source's
`!event.data?.type === 'TOKEN_READY'` and
`!event.data?.source === 'session-tracker'` comparisons, which strict-
compare a boolean against a string.  `cw` is
`this.iframe.contentWindow` (a window reference or `none`). -/
def rejectEvent (cfgOrigin : String) (cw : Option Nat) (e : MsgEvent) : Bool :=
  cw.isNone ||
  e.origin != cfgOrigin ||
  e.eventSource != cw ||
  strictEq (JSVal.bool (jsNot (optChainStr e.data Payload.type))) (JSVal.str "TOKEN_READY") ||
  strictEq (JSVal.bool (jsNot (optChainStr e.data Payload.source))) (JSVal.str "session-tracker") ||
  jsNot (optChainStr e.data Payload.token)

/-- Observable state of the Bridge Client: the cached global token
(`window[javascriptKey]`), the pending-waiter set (`tokenReadyCallbacks`,
waiters as numeric identities), the message types posted to the
iframe's content window, the resolutions performed so far (waiter,
value), the count of `visitor:token-ready` events dispatched, and the
parent page's own storage/cookie mirror used when `syncWithParent` is
set. -/
structure BridgeState where
  cachedToken : Option String
  waiters : List Nat
  posted : List String
  resolved : List (Nat × Option String)
  events : Nat
  parentStorage : Option String
  parentCookie : Option String
deriving DecidableEq, Repr

/-- Which parent-page browser primitives throw in the current
environment (the embedding page is a different browsing context from
the iframe, so its failure modes are separate from `FailureModel`):
`parentStorageSetFails`: the parent's `localStorage.setItem` throws
(quota, storage disabled); `parentCookieWriteFails`: assigning the
parent's `document.cookie` throws. -/
structure BridgeFailureModel where
  parentStorageSetFails : Bool
  parentCookieWriteFails : Bool
deriving DecidableEq, Repr

/-- The parent-page environment in which no browser primitive throws. -/
def bridgeNoFail : BridgeFailureModel :=
  { parentStorageSetFails := false, parentCookieWriteFails := false }

/-- Bridge Client `handleTokenReady(data)` (src/index.ts lines 307-323):
one `safeExecute` wrapping, in order, the global cache write
(`window[javascriptKey] = data.token`, which cannot throw), the
parent-mirror writes when `syncWithParent` is set
(`localStorage.setItem`, then `setCookie`, the latter internally
safe-executed), the `visitor:token-ready` dispatch, and finally the
resolution and clearing of every pending waiter.  A throwing parent
`localStorage.setItem` therefore aborts everything after the cache
write: no event is dispatched and the waiters are neither resolved nor
cleared; a throwing parent cookie write only skips the cookie mirror. -/
def handleTokenReady (bf : BridgeFailureModel) (sync : Bool) (p : Payload)
    (s : BridgeState) : BridgeState :=
  let s1 := { s with cachedToken := p.token }
  if sync && bf.parentStorageSetFails then s1
  else
    let s2 := if sync then { s1 with parentStorage := p.token } else s1
    let s3 := if sync && !bf.parentCookieWriteFails then { s2 with parentCookie := p.token }
              else s2
    let s4 := { s3 with events := s3.events + 1 }
    { s4 with
      resolved := s4.resolved ++ s4.waiters.map (fun w => (w, p.token)),
      waiters := [] }

/-- One run of the Bridge Client's message listener (src/index.ts lines
290-303) on an event: drops it when the rejection guard fires,
otherwise invokes `handleTokenReady` on the event's data.  The boolean
records whether `handleTokenReady` was invoked.  (The `none` data
branch after acceptance is unreachable: a null `event.data` makes
`!event.data?.token` true and the guard fire.) -/
def listenerStep (cfgOrigin : String) (cw : Option Nat) (bf : BridgeFailureModel)
    (sync : Bool) (e : MsgEvent) (s : BridgeState) : Bool × BridgeState :=
  if rejectEvent cfgOrigin cw e then (false, s)
  else
    match e.data with
    | some p => (true, handleTokenReady bf sync p s)
    | none => (true, s)

/-- The result of the Bridge Client's `getToken()` as seen by its
caller: resolved immediately with a value, or left pending. -/
inductive GetTokenResult where
  | immediate (t : String)
  | pending
deriving DecidableEq, Repr

/-- Bridge Client `getToken()` (src/index.ts lines 331-348): resolves
immediately when the cached global token is truthy; otherwise adds the
resolver `w` to the waiter set and, when the iframe's content window
exists, posts a `GET_TOKEN` message to it. -/
def bridgeGetToken (hasCW : Bool) (w : Nat) (s : BridgeState) :
    GetTokenResult × BridgeState :=
  if truthy s.cachedToken then
    (GetTokenResult.immediate (s.cachedToken.getD ""), s)
  else
    let s1 := { s with waiters := s.waiters ++ [w] }
    let s2 := if hasCW then { s1 with posted := s1.posted ++ ["GET_TOKEN"] } else s1
    (GetTokenResult.pending, s2)

/-! ## Redirect-on-load sequence -/

/-- A parsed URL as produced by the browser's `URL` constructor, to the
granularity the redirect step needs: a base (scheme, host and path)
and its query parameters. -/
structure URLModel where
  base : String
  query : List (String × String)
deriving DecidableEq, Repr

/-- `searchParams.set(k, v)`: replaces the value of an existing
parameter `k`, or appends the pair when absent. -/
def setParam (q : List (String × String)) (k v : String) : List (String × String) :=
  if q.any (fun p => p.1 == k) then
    q.map (fun p => if p.1 == k then (k, v) else p)
  else q ++ [(k, v)]

/-- Serialisation of a `URLModel` back to a string (`URL.toString()`). -/
def urlToString (u : URLModel) : String :=
  u.base ++ "?" ++ String.intercalate "&" (u.query.map (fun p => p.1 ++ "=" ++ p.2))

/-- What the redirect step does: navigates to a URL, or does nothing. -/
inductive RedirectOutcome where
  | navigated (url : String)
  | skipped
deriving DecidableEq, Repr

/-- The redirect block of the Bridge Client's constructor-time async
sequence (src/index.ts lines 246-257), run after the iframe load and
the initial `getToken()` have completed.  `parseURL` is the browser's
`new URL(...)` primitive (`none` when the constructor would throw);
`redirectParam` is `params.get(redirectAttribute)` (`none` when
`params.has` is false).  The source calls `new URL(redirect)` with no
try/catch inside an unawaited `async` arrow, so an unparseable value
is an uncaught `TypeError`, modelled as `Except.error`. -/
def redirectStep (parseURL : String → Option URLModel)
    (redirectParam : Option String) (redirectKey : String) (tokenVal : String) :
    Except String RedirectOutcome :=
  match redirectParam with
  | none => Except.ok RedirectOutcome.skipped
  | some r =>
      if r == "" then Except.ok RedirectOutcome.skipped
      else
        match parseURL r with
        | none => Except.error "TypeError: Invalid URL"
        | some u =>
            Except.ok (RedirectOutcome.navigated
              (urlToString { u with query := setParam u.query redirectKey tokenVal }))

/-! ## Shared helper lemmas -/

/-- Truthiness of `none` (null/undefined). -/
theorem truthy_none_eq : truthy none = false := rfl

/-- A present string is truthy exactly when it is non-empty. -/
theorem truthy_some_iff (s : String) : truthy (some s) = true ↔ s ≠ "" := by
  simp [truthy]

/-- A present string is falsy exactly when it is empty. -/
theorem truthy_some_false_iff (s : String) : truthy (some s) = false ↔ s = "" := by
  simp [truthy]

/-- No domain-conjunct option can collide with the `samesite=None` option. -/
theorem domain_opt_ne (d : String) : "domain=" ++ d ≠ "samesite=None" := by
  intro h
  have h2 := congrArg String.data h
  rw [String.data_append] at h2
  simp at h2

/-- No expires-conjunct option can collide with the `samesite=None` option. -/
theorem expires_opt_ne (e : String) : "expires=" ++ e ≠ "samesite=None" := by
  intro h
  have h2 := congrArg String.data h
  rw [String.data_append] at h2
  simp at h2

/-! ## Claim theorems -/

/-- C1: any inbound message whose origin differs from the configured
Token Store origin, or whose source window differs from the managed
iframe's content window, is dropped by the Bridge Client's listener:
`handleTokenReady` is not invoked and the whole Bridge state — in
particular the cached global token — is unchanged. -/
theorem c1_listener_drops_mismatched_origin_or_source
    (cfgOrigin : String) (cw : Option Nat) (bf : BridgeFailureModel) (sync : Bool)
    (e : MsgEvent) (s : BridgeState)
    (hmism : e.origin ≠ cfgOrigin ∨ e.eventSource ≠ cw) :
    listenerStep cfgOrigin cw bf sync e s = (false, s) := by
  have hr : rejectEvent cfgOrigin cw e = true := by
    unfold rejectEvent
    rcases hmism with h | h <;> simp [h]
  unfold listenerStep
  simp [hr]

/-- C1 witness: a concrete spoofed-origin event is dropped with the
state unchanged. -/
theorem c1_listener_drops_mismatched_origin_or_source_witness :
    listenerStep "https://store.example" (some 0) bridgeNoFail false
      { origin := "https://evil.example", eventSource := some 0, data := none }
      { cachedToken := none, waiters := [], posted := [], resolved := [],
        events := 0, parentStorage := none, parentCookie := none } =
    (false,
      { cachedToken := none, waiters := [], posted := [], resolved := [],
        events := 0, parentStorage := none, parentCookie := none }) :=
  c1_listener_drops_mismatched_origin_or_source
    "https://store.example" (some 0) bridgeNoFail false
    { origin := "https://evil.example", eventSource := some 0, data := none }
    { cachedToken := none, waiters := [], posted := [], resolved := [],
      events := 0, parentStorage := none, parentCookie := none }
    (Or.inl (by decide))

/-- C2: evidence of the code bug.  An event with matching origin and
source window but a wrong `type` field AND a wrong `source` field is
nonetheless accepted: `handleTokenReady` is invoked and the spoofed
token is cached.  The source's guards
`!event.data?.type === 'TOKEN_READY'` and
`!event.data?.source === 'session-tracker'` strict-compare a boolean
against a string, so they are always false and reject nothing,
contradicting the claim (and the spec's stated intent) that an event
failing the type/source field checks is dropped. -/
theorem c2_wrong_type_and_source_fields_accepted :
    (listenerStep "https://store.example" (some 0) bridgeNoFail false
      { origin := "https://store.example", eventSource := some 0,
        data := some { type := some "NOT_TOKEN_READY", source := some "spoofed",
                       token := some "tok123" } }
      { cachedToken := none, waiters := [7], posted := [], resolved := [],
        events := 0, parentStorage := none, parentCookie := none }).1 = true
    ∧
    (listenerStep "https://store.example" (some 0) bridgeNoFail false
      { origin := "https://store.example", eventSource := some 0,
        data := some { type := some "NOT_TOKEN_READY", source := some "spoofed",
                       token := some "tok123" } }
      { cachedToken := none, waiters := [7], posted := [], resolved := [],
        events := 0, parentStorage := none, parentCookie := none }).2.cachedToken
      = some "tok123" := by
  decide

/-- C3: evidence of the code bug.  The redirect block calls
`new URL(redirect)` with no try/catch inside an unawaited `async`
arrow function (src/index.ts lines 241-258), so a redirect query value
that is not a parseable URL raises a `TypeError` that escapes as an
unhandled promise rejection, contradicting the claim that no uncaught
exception or unhandled rejection escapes. -/
theorem c3_invalid_redirect_url_raises :
    redirectStep (fun _ => none) (some "::not-a-url::") "visitor_token" "tok" =
      Except.error "TypeError: Invalid URL" := rfl

/-- C4: Token Store `setToken` is a no-op on falsy input (null or
empty string) in every environment, and in a non-throwing environment
`setToken T` followed by `getToken` returns `T` with all three holders
equal to `T`. -/
theorem c4_set_token_falsy_noop_and_roundtrip
    (f : FailureModel) (h : HolderState) (t : String) (ht : t ≠ "") :
    setTokenRun f none h = h ∧
    setTokenRun f (some "") h = h ∧
    getTokenRun noFail (setTokenRun noFail (some t) h) = some t ∧
    (setTokenRun noFail (some t) h).storage = some t ∧
    (setTokenRun noFail (some t) h).cookie = some t ∧
    (setTokenRun noFail (some t) h).memory = t := by
  refine ⟨?_, ?_, ?_, ?_, ?_, ?_⟩ <;>
    simp [setTokenRun, getTokenRun, truthy, jsOr, noFail, ht]

/-- C4 witness: round trip at the concrete token `"tok"` from the
empty holder state. -/
theorem c4_set_token_falsy_noop_and_roundtrip_witness :
    setTokenRun noFail none ⟨none, none, ""⟩ = ⟨none, none, ""⟩ ∧
    setTokenRun noFail (some "") ⟨none, none, ""⟩ = ⟨none, none, ""⟩ ∧
    getTokenRun noFail (setTokenRun noFail (some "tok") ⟨none, none, ""⟩) = some "tok" ∧
    (setTokenRun noFail (some "tok") ⟨none, none, ""⟩).storage = some "tok" ∧
    (setTokenRun noFail (some "tok") ⟨none, none, ""⟩).cookie = some "tok" ∧
    (setTokenRun noFail (some "tok") ⟨none, none, ""⟩).memory = "tok" :=
  c4_set_token_falsy_noop_and_roundtrip noFail ⟨none, none, ""⟩ "tok" (by decide)

/-- C5 counterexample: the claim says a failing read of one holder
degrades to the next, and that `getToken` is falsy exactly when all
three holders are empty or unreadable.  But with a throwing
`localStorage.getItem`, a readable non-empty cookie and empty memory,
`getToken` returns null: the one `safeExecute` wrapping the whole read
chain aborts it instead of degrading to the cookie. -/
theorem c5_storage_failure_counterexample :
    getTokenRun
      { storageGetFails := true, storageSetFails := false,
        cookieReadFails := false, cookieWriteFails := false }
      { storage := none, cookie := some "cookie-token", memory := "" } = none := by
  decide

/-- C5 (amended): `getToken` never throws; a cookie-read failure
degrades to the in-memory holder; but a local-storage read failure
makes `getToken` return null regardless of the other holders.  When
the local-storage read succeeds, the first truthy value in the order
storage → cookie → memory wins, and the result is falsy exactly when
either the storage read failed, or storage is empty, the cookie is
empty or unreadable, and memory is empty. -/
theorem c5_read_precedence_amended (f : FailureModel) (h : HolderState) :
    (f.storageGetFails = true → getTokenRun f h = none) ∧
    (f.storageGetFails = false → truthy h.storage = true → getTokenRun f h = h.storage) ∧
    (f.storageGetFails = false → truthy h.storage = false → f.cookieReadFails = false →
        truthy h.cookie = true → getTokenRun f h = h.cookie) ∧
    (f.storageGetFails = false → truthy h.storage = false →
        (f.cookieReadFails = true ∨ truthy h.cookie = false) →
        getTokenRun f h = some h.memory) ∧
    (truthy (getTokenRun f h) = false ↔
        (f.storageGetFails = true ∨
          (truthy h.storage = false ∧ (f.cookieReadFails = true ∨ truthy h.cookie = false) ∧
           h.memory = ""))) := by
  refine ⟨?_, ?_, ?_, ?_, ?_⟩
  · intro hg; simp [getTokenRun, hg]
  · intro hg hst; simp [getTokenRun, jsOr, hg, hst]
  · intro hg hst hcr hck; simp [getTokenRun, jsOr, hg, hst, hcr, hck]
  · intro hg hst hck
    rcases hck with hcr | hck
    · simp [getTokenRun, jsOr, hg, hst, hcr, truthy_none_eq]
    · cases hcr : f.cookieReadFails <;>
        simp [getTokenRun, jsOr, hg, hst, hck, hcr, truthy_none_eq]
  · cases hg : f.storageGetFails <;>
      cases hcr : f.cookieReadFails <;>
      rcases hst : truthy h.storage with _ | _ <;>
      rcases hck : truthy h.cookie with _ | _ <;>
      simp [getTokenRun, jsOr, hg, hcr, hst, hck, truthy_some_false_iff, truthy_none_eq]

/-- C5 amended witness: with no failures, empty storage and a
non-empty cookie, `getToken` returns the cookie value. -/
theorem c5_read_precedence_amended_witness :
    getTokenRun noFail { storage := none, cookie := some "c", memory := "m" } = some "c" :=
  (c5_read_precedence_amended noFail
      { storage := none, cookie := some "c", memory := "m" }).2.2.1
    rfl (by decide) rfl (by decide)

/-- C6: with `sameSite='None'` and `secure=false` (and the default
empty domain) the generated cookie options contain both `secure` and
`samesite=None`; and for every configuration the options never contain
`samesite=None` without also containing `secure`, because
`getCookieOptions` forces `secure=true` whenever `sameSite` is
`None`. -/
theorem c6_samesite_none_forces_secure :
    (∀ expires,
      "secure" ∈ getCookieOptionsList
          { domain := "", secure := false, sameSite := SameSite.SNone } expires ∧
      "samesite=None" ∈ getCookieOptionsList
          { domain := "", secure := false, sameSite := SameSite.SNone } expires) ∧
    (∀ c expires,
      "samesite=None" ∈ getCookieOptionsList c expires →
      "secure" ∈ getCookieOptionsList c expires) := by
  constructor
  · intro expires
    constructor <;> simp [getCookieOptionsList, forceSecure, sameSiteStr]
  · intro c expires hmem
    obtain ⟨d, sec, ss⟩ := c
    cases ss <;> cases sec <;>
      by_cases hd : d = "" <;>
      simp [getCookieOptionsList, forceSecure, sameSiteStr, hd] at hmem ⊢
    all_goals
      first
        | exact absurd hmem.symm (expires_opt_ne expires)
        | (rcases hmem with hm | hm
           · exact absurd hm.symm (domain_opt_ne d)
           · exact absurd hm.symm (expires_opt_ne expires))

/-- C6 witness: both halves at concrete configurations and a concrete
expiration date. -/
theorem c6_samesite_none_forces_secure_witness :
    "secure" ∈ getCookieOptionsList
        { domain := "", secure := false, sameSite := SameSite.SNone }
        "Mon, 01 Jan 2035 00:00:00 GMT" ∧
    "samesite=None" ∈ getCookieOptionsList
        { domain := "", secure := false, sameSite := SameSite.SNone }
        "Mon, 01 Jan 2035 00:00:00 GMT" ∧
    "secure" ∈ getCookieOptionsList
        { domain := "example.com", secure := true, sameSite := SameSite.SNone }
        "Mon, 01 Jan 2035 00:00:00 GMT" :=
  ⟨(c6_samesite_none_forces_secure.1 "Mon, 01 Jan 2035 00:00:00 GMT").1,
   (c6_samesite_none_forces_secure.1 "Mon, 01 Jan 2035 00:00:00 GMT").2,
   c6_samesite_none_forces_secure.2
     { domain := "example.com", secure := true, sameSite := SameSite.SNone }
     "Mon, 01 Jan 2035 00:00:00 GMT" (by decide)⟩

/-- C7: the Token Store's `initialize` is idempotent: a second call in
the same context (any environment, any generated token) leaves the
agent's state — holders, listener count, timer count, flag — exactly
as after the first call, and the first call always sets the one-shot
flag. -/
theorem c7_second_init_noop
    (f1 f2 : FailureModel) (g1 g2 : Option String) (c : StoreCtx) :
    initStore f2 g2 (initStore f1 g1 c) = initStore f1 g1 c ∧
    (initStore f1 g1 c).isInitialized = true := by
  unfold initStore
  by_cases hc : c.isInitialized <;> simp [hc]

/-- C8: one reconciliation tick in an environment whose storage
operations do not throw: when the storage slot is falsy and memory
holds a non-empty token, the tick writes the memory token back into
the storage slot and leaves memory unchanged; when the storage slot is
truthy, the tick changes nothing. -/
theorem c8_reconcile_restores_memory_token (f : FailureModel) (h : HolderState)
    (hg : f.storageGetFails = false) (hs : f.storageSetFails = false) :
    (truthy h.storage = false → h.memory ≠ "" →
      (reconcileTick f h).storage = some h.memory ∧
      (reconcileTick f h).memory = h.memory) ∧
    (truthy h.storage = true → reconcileTick f h = h) := by
  constructor
  · intro h1 h2
    have hmem : truthy (some h.memory) = true := (truthy_some_iff h.memory).2 h2
    cases hcw : f.cookieWriteFails <;>
      simp [reconcileTick, hg, h1, h2, setTokenRun, hs, hcw, hmem]
  · intro h1
    simp [reconcileTick, hg, h1]

/-- C8 witness: a cleared storage slot with memory token `"m"` is
restored in one tick. -/
theorem c8_reconcile_restores_memory_token_witness :
    (reconcileTick noFail { storage := none, cookie := none, memory := "m" }).storage
        = some "m" ∧
    (reconcileTick noFail { storage := none, cookie := none, memory := "m" }).memory
        = "m" :=
  (c8_reconcile_restores_memory_token noFail
      { storage := none, cookie := none, memory := "m" } rfl rfl).1 rfl (by decide)

/-- C9 counterexample: the claim says an accepted `TOKEN_READY` makes
`handleTokenReady` resolve every pending waiter and empty the waiter
set.  But with `syncWithParent` set and a throwing parent
`localStorage.setItem`, the one `safeExecute` around the handler body
aborts after the global cache write: the concrete accepted message
below (matching origin, source window and truthy token, handler
invoked, token cached) leaves the waiter set untouched and resolves
nothing. -/
theorem c9_sync_write_failure_counterexample :
    (listenerStep "https://store.example" (some 0)
      { parentStorageSetFails := true, parentCookieWriteFails := false } true
      { origin := "https://store.example", eventSource := some 0,
        data := some { type := some "TOKEN_READY", source := some "session-tracker",
                       token := some "tk" } }
      { cachedToken := none, waiters := [5], posted := ["GET_TOKEN"], resolved := [],
        events := 0, parentStorage := none, parentCookie := none }).1 = true
    ∧
    (listenerStep "https://store.example" (some 0)
      { parentStorageSetFails := true, parentCookieWriteFails := false } true
      { origin := "https://store.example", eventSource := some 0,
        data := some { type := some "TOKEN_READY", source := some "session-tracker",
                       token := some "tk" } }
      { cachedToken := none, waiters := [5], posted := ["GET_TOKEN"], resolved := [],
        events := 0, parentStorage := none, parentCookie := none }).2.cachedToken
      = some "tk"
    ∧
    (listenerStep "https://store.example" (some 0)
      { parentStorageSetFails := true, parentCookieWriteFails := false } true
      { origin := "https://store.example", eventSource := some 0,
        data := some { type := some "TOKEN_READY", source := some "session-tracker",
                       token := some "tk" } }
      { cachedToken := none, waiters := [5], posted := ["GET_TOKEN"], resolved := [],
        events := 0, parentStorage := none, parentCookie := none }).2.waiters = [5]
    ∧
    (listenerStep "https://store.example" (some 0)
      { parentStorageSetFails := true, parentCookieWriteFails := false } true
      { origin := "https://store.example", eventSource := some 0,
        data := some { type := some "TOKEN_READY", source := some "session-tracker",
                       token := some "tk" } }
      { cachedToken := none, waiters := [5], posted := ["GET_TOKEN"], resolved := [],
        events := 0, parentStorage := none, parentCookie := none }).2.resolved = [] := by
  decide

/-- C9 (amended): the Bridge Client's `getToken` resolves immediately
with the cached token when it is non-empty, changing nothing (no
waiter added, no message posted); otherwise it returns pending,
appends its resolver to the waiter set, and posts `GET_TOKEN` exactly
when the iframe's content window exists.  An accepted `TOKEN_READY`
always caches the message's token; and provided parent-sync is
disabled or the parent-page mirror write does not raise,
`handleTokenReady` resolves every pending waiter with the token and
empties the waiter set in the same operation — whereas with
parent-sync enabled and a throwing parent `localStorage.setItem` it
leaves the waiter set untouched and resolves nothing. -/
theorem c9_get_token_waiter_lifecycle_amended
    (bf : BridgeFailureModel) (hasCW : Bool) (w : Nat) (s : BridgeState)
    (sync : Bool) (p : Payload) :
    (∀ t, s.cachedToken = some t → t ≠ "" →
        bridgeGetToken hasCW w s = (GetTokenResult.immediate t, s)) ∧
    (truthy s.cachedToken = false →
        (bridgeGetToken hasCW w s).1 = GetTokenResult.pending ∧
        (bridgeGetToken hasCW w s).2.waiters = s.waiters ++ [w] ∧
        (hasCW = true → (bridgeGetToken hasCW w s).2.posted = s.posted ++ ["GET_TOKEN"]) ∧
        (hasCW = false → (bridgeGetToken hasCW w s).2.posted = s.posted)) ∧
    ((handleTokenReady bf sync p s).cachedToken = p.token) ∧
    (sync = false ∨ bf.parentStorageSetFails = false →
        (handleTokenReady bf sync p s).resolved =
            s.resolved ++ s.waiters.map (fun x => (x, p.token)) ∧
        (handleTokenReady bf sync p s).waiters = []) ∧
    (sync = true → bf.parentStorageSetFails = true →
        (handleTokenReady bf sync p s).resolved = s.resolved ∧
        (handleTokenReady bf sync p s).waiters = s.waiters) := by
  refine ⟨?_, ?_, ?_, ?_, ?_⟩
  · intro t hct ht
    simp [bridgeGetToken, hct, truthy, ht]
  · intro hf
    cases hasCW <;> simp [bridgeGetToken, hf]
  · cases sync <;> cases hps : bf.parentStorageSetFails <;>
      cases hpc : bf.parentCookieWriteFails <;>
      simp [handleTokenReady, hps, hpc]
  · intro hok
    cases hsync : sync
    · cases hpc : bf.parentCookieWriteFails <;> simp [handleTokenReady, hpc]
    · have hps : bf.parentStorageSetFails = false := by
        rcases hok with h | h
        · rw [hsync] at h
          exact absurd h (by simp)
        · exact h
      cases hpc : bf.parentCookieWriteFails <;> simp [handleTokenReady, hps, hpc]
  · intro h1 h2
    simp [handleTokenReady, h1, h2]

/-- C9 amended witness: a cached token resolves immediately without
touching the state; with no cached token the waiter is registered; and
in a non-throwing parent environment a later `handleTokenReady`
resolves and clears the registered waiter. -/
theorem c9_get_token_waiter_lifecycle_amended_witness :
    bridgeGetToken true 5
      { cachedToken := some "tok", waiters := [], posted := [], resolved := [],
        events := 0, parentStorage := none, parentCookie := none } =
      (GetTokenResult.immediate "tok",
        { cachedToken := some "tok", waiters := [], posted := [], resolved := [],
          events := 0, parentStorage := none, parentCookie := none }) ∧
    (bridgeGetToken true 5
      { cachedToken := none, waiters := [], posted := [], resolved := [],
        events := 0, parentStorage := none, parentCookie := none }).2.waiters = [5] ∧
    (handleTokenReady bridgeNoFail false
      { type := some "TOKEN_READY", source := some "session-tracker", token := some "tk" }
      { cachedToken := none, waiters := [5], posted := ["GET_TOKEN"], resolved := [],
        events := 0, parentStorage := none, parentCookie := none }).waiters = [] :=
  ⟨(c9_get_token_waiter_lifecycle_amended bridgeNoFail true 5
      { cachedToken := some "tok", waiters := [], posted := [], resolved := [],
        events := 0, parentStorage := none, parentCookie := none } false
      { type := some "TOKEN_READY", source := some "session-tracker",
        token := some "tk" }).1 "tok" rfl (by decide),
   ((c9_get_token_waiter_lifecycle_amended bridgeNoFail true 5
      { cachedToken := none, waiters := [], posted := [], resolved := [],
        events := 0, parentStorage := none, parentCookie := none } false
      { type := some "TOKEN_READY", source := some "session-tracker",
        token := some "tk" }).2.1 rfl).2.1,
   ((c9_get_token_waiter_lifecycle_amended bridgeNoFail true 5
      { cachedToken := none, waiters := [5], posted := ["GET_TOKEN"], resolved := [],
        events := 0, parentStorage := none, parentCookie := none } false
      { type := some "TOKEN_READY", source := some "session-tracker",
        token := some "tk" }).2.2.2.1 (Or.inl rfl)).2⟩

/-- C10: the Token Store posts a `TOKEN_READY` message only when it
holds a truthy token: a `GET_TOKEN` request received while `getToken`
is falsy posts nothing (`notifyParent` posts nothing for any falsy
token), and every message the handler ever appends to the outbox is a
`TOKEN_READY` carrying a non-empty token. -/
theorem c10_token_ready_only_with_token
    (f : FailureModel) (hasParent : Bool) (now : Nat) (h : HolderState)
    (outbox : List StoreMsg) (d : Option StoreInPayload) :
    (truthy (getTokenRun f h) = false →
        storeHandleMessage f hasParent now h outbox d = outbox) ∧
    (∀ tok, truthy tok = false → notifyParent hasParent now tok outbox = outbox) ∧
    (∀ m ∈ storeHandleMessage f hasParent now h outbox d,
        m ∈ outbox ∨ (m.type = "TOKEN_READY" ∧ m.token ≠ "")) := by
  refine ⟨?_, ?_, ?_⟩
  · intro hf
    cases d with
    | none => rfl
    | some p =>
        cases hp : p.type with
        | none => simp [storeHandleMessage, hp]
        | some t => simp [storeHandleMessage, hp, notifyParent, hf]
  · intro tok hf
    simp [notifyParent, hf]
  · intro m hm
    cases d with
    | none => exact Or.inl hm
    | some p =>
        cases hp : p.type with
        | none => simp [storeHandleMessage, hp] at hm; exact Or.inl hm
        | some t =>
            simp only [storeHandleMessage, hp] at hm
            by_cases h1 : t = ""
            · simp [h1] at hm; exact Or.inl hm
            · by_cases h2 : t = "GET_TOKEN"
              · simp [h1, h2, notifyParent] at hm
                rcases hgt : getTokenRun f h with _ | tv
                · simp [hgt, truthy] at hm
                  exact Or.inl hm
                · by_cases h3 : tv = ""
                  · simp [hgt, truthy, h3] at hm
                    exact Or.inl hm
                  · cases hasParent
                    · simp [hgt, truthy, h3] at hm
                      exact Or.inl hm
                    · simp [hgt, truthy, h3, List.mem_append] at hm
                      rcases hm with hm | hm
                      · exact Or.inl hm
                      · right; subst hm; exact ⟨rfl, by simpa using h3⟩
              · simp [h1, h2] at hm; exact Or.inl hm

/-- C10 witness: a `GET_TOKEN` request while every holder is empty
posts nothing. -/
theorem c10_token_ready_only_with_token_witness :
    storeHandleMessage noFail true 0 { storage := none, cookie := none, memory := "" }
      [] (some { type := some "GET_TOKEN" }) = [] :=
  (c10_token_ready_only_with_token noFail true 0
      { storage := none, cookie := none, memory := "" }
      [] (some { type := some "GET_TOKEN" })).1 (by decide)
